import Mathlib

/-!
# FitByte — verification of the credential / authorization / query-builder core

Shallow embedding of the FitByte REST backend (Rust, actix-web).  Pure logic is
translated directly from the source files under `src/`; calls into external
libraries (the database pool, `spawn_blocking` join results, `bcrypt`,
`jsonwebtoken`, `chrono` parsing, the `moka` cache) are modelled explicitly:
either as parameters carrying the external call's outcome, or as small
definitions whose doc comment says what they model.
-/

namespace FitByte

/-- The application error taxonomy, translated from `src/errors/mod.rs`
(`enum AppError`). Each variant carries its message string. -/
inductive AppError where
  | NotFound (msg : String)
  | Unauthorized (msg : String)
  | Conflict (msg : String)
  | InternalServerError (msg : String)
  | BadRequest (msg : String)
deriving DecidableEq, Repr

/-- HTTP status code of each `AppError` variant, from
`impl ResponseError for AppError` in `src/errors/mod.rs`. -/
def AppError.statusCode : AppError → Nat
  | .NotFound _ => 404
  | .Unauthorized _ => 401
  | .Conflict _ => 409
  | .InternalServerError _ => 500
  | .BadRequest _ => 400

/-- The JSON body produced by `AppError::error_response`
(`src/errors/mod.rs` lines 32-40): the response body is
`ErrorResponse \x7b error: msg \x7d`, i.e. it carries the variant's message
string verbatim. We model the body by that message string. -/
def AppError.responseBody : AppError → String
  | .NotFound msg => msg
  | .Unauthorized msg => msg
  | .Conflict msg => msg
  | .InternalServerError msg => msg
  | .BadRequest msg => msg

/-! ## Filtered query builder (`get_activities`, `src/handlers/activity.rs`) -/

/-- Query-string parameters of `GET /v1/activity`, translated from
`struct GetActivitiesQuery` in `src/handlers/activity.rs`. -/
structure GetActivitiesQuery where
  limit : Option Int
  offset : Option Int
  activity_type : Option String
  done_at_from : Option String
  done_at_to : Option String
  calories_burned_min : Option Int
  calories_burned_max : Option Int
deriving DecidableEq, Repr

/-- The statement text and the `params: Vec<String>` built by `get_activities`
(`src/handlers/activity.rs` lines 148-181), translated fragment by fragment:
the owner predicate is always first, each present optional filter appends its
hard-coded fragment (`$2` .. `$6`) and pushes its value onto `params`, and the
pagination tail `LIMIT $7 OFFSET $8` plus the limit/offset values are always
appended last. -/
def buildActivitiesQuery (userId : String) (q : GetActivitiesQuery) :
    String × List String :=
  let limit := q.limit.getD 5
  let offset := q.offset.getD 0
  let sql0 := "SELECT * FROM activities WHERE user_id = $1"
  let params0 : List String := [userId]
  let (sql1, params1) :=
    match q.activity_type with
    | some t => (sql0 ++ " AND activity_type = $2", params0 ++ [t])
    | none => (sql0, params0)
  let (sql2, params2) :=
    match q.done_at_from with
    | some v => (sql1 ++ " AND done_at >= $3::timestamptz", params1 ++ [v])
    | none => (sql1, params1)
  let (sql3, params3) :=
    match q.done_at_to with
    | some v => (sql2 ++ " AND done_at <= $4::timestamptz", params2 ++ [v])
    | none => (sql2, params2)
  let (sql4, params4) :=
    match q.calories_burned_min with
    | some v => (sql3 ++ " AND calories_burned >= $5", params3 ++ [toString v])
    | none => (sql3, params3)
  let (sql5, params5) :=
    match q.calories_burned_max with
    | some v => (sql4 ++ " AND calories_burned <= $6", params4 ++ [toString v])
    | none => (sql4, params4)
  (sql5 ++ " LIMIT $7 OFFSET $8",
   params5 ++ [toString limit, toString offset])

/-- A bound SQL parameter value as sent by sqlx `.bind(..)`: binding an
`Option` that is `None` binds SQL NULL. -/
inductive SqlValue where
  | vNull
  | vStr (s : String)
  | vInt (n : Int)
deriving DecidableEq, Repr

/-- `.bind` of an optional string argument. -/
def bindOptStr : Option String → SqlValue
  | some s => .vStr s
  | none => .vNull

/-- `.bind` of an optional integer argument. -/
def bindOptInt : Option Int → SqlValue
  | some n => .vInt n
  | none => .vNull

/-- The parameter list actually bound for execution by `get_activities`
(`src/handlers/activity.rs` lines 184-192): all eight values are always bound,
in the fixed declared order, with `None` filters bound as NULL. -/
def activitiesBindList (userId : String) (q : GetActivitiesQuery) :
    List SqlValue :=
  [ .vStr userId,
    bindOptStr q.activity_type,
    bindOptStr q.done_at_from,
    bindOptStr q.done_at_to,
    bindOptInt q.calories_burned_min,
    bindOptInt q.calories_burned_max,
    .vInt (q.limit.getD 5),
    .vInt (q.offset.getD 0) ]

/-- Extracts, left to right, the numbers of the `$n` placeholders occurring in
a statement's character list; the accumulator holds the number currently being
read after a `$`. -/
def placeholdersAux : List Char → Option Nat → List Nat
  | [], some n => [n]
  | [], none => []
  | c :: rest, some n =>
      if c.isDigit then placeholdersAux rest (some (10 * n + (c.toNat - 48)))
      else n :: placeholdersAux rest (if c = '$' then some 0 else none)
  | c :: rest, none =>
      if c = '$' then placeholdersAux rest (some 0)
      else placeholdersAux rest none

/-- The list of `$n` placeholder numbers in a statement text, in order of
occurrence. -/
def placeholders (s : String) : List Nat :=
  placeholdersAux s.toList none

/-- Counts occurrences of the fragment separator `" AND "` in a character
list; every optional predicate fragment appended by `get_activities` starts
with `" AND "` and nothing else in the statement contains it. -/
def countAndAux : List Char → Nat
  | ' ' :: 'A' :: 'N' :: 'D' :: ' ' :: rest => countAndAux rest + 1
  | _ :: rest => countAndAux rest
  | [] => 0

/-- Number of optional predicate fragments in a built statement. -/
def fragmentCount (s : String) : Nat :=
  countAndAux s.toList

/-! ## Token codec and auth gate (`src/utils/jwt.rs`) -/

/-- JWT claims, translated from `struct Claims` in `src/utils/jwt.rs`:
`sub` is the user email, `exp` the expiry as a Unix timestamp. -/
structure Claims where
  sub : String
  exp : Nat
deriving DecidableEq, Repr

/-- Model of an encoded JWT as handled by the `jsonwebtoken` library (external
to `src/`): either a string that does not decode as a JWT at all, or a
well-formed token carrying its claims together with the secret it was signed
with (signature verification succeeds exactly when the verifying secret equals
the signing secret). -/
inductive Token where
  | malformed (raw : String)
  | signed (claims : Claims) (key : String)
deriving DecidableEq, Repr

/-- Error kinds of the `jsonwebtoken` library that the code in
`src/utils/jwt.rs` distinguishes. -/
inductive JwtErrorKind where
  | InvalidToken
  | InvalidSignature
  | ExpiredSignature
deriving DecidableEq, Repr

/-- Default expiry leeway of `jsonwebtoken::Validation::new` (60 seconds),
used by `decode` in `validate_token_async`. -/
def jwtLeeway : Nat := 60

/-- Model of `jsonwebtoken::decode::<Claims>` with
`Validation::new(Algorithm::HS256)` as called in `validate_token_async`
(`src/utils/jwt.rs` lines 41-46): reject malformed input, then reject a
signature made with a different secret, then reject claims whose `exp` lies
more than the default leeway before `now`; otherwise return the claims. -/
def decodeToken (t : Token) (secret : String) (now : Nat) :
    Except JwtErrorKind Claims :=
  match t with
  | .malformed _ => .error .InvalidToken
  | .signed c k =>
      if k ≠ secret then .error .InvalidSignature
      else if c.exp < now - jwtLeeway then .error .ExpiredSignature
      else .ok c

/-- `validate_token_async` (`src/utils/jwt.rs` lines 36-50): the decode runs
on the blocking pool; `joinOk` is whether the pool returned a result. When the
offloaded task is abandoned (`joinOk = false`) the join error is mapped by
`unwrap_or_else` to `Err(ErrorKind::InvalidToken)`. -/
def validate_token_async (joinOk : Bool) (t : Token) (secret : String)
    (now : Nat) : Except JwtErrorKind Claims :=
  if joinOk then decodeToken t secret now
  else .error .InvalidToken

/-- Outcome of the bearer `validator` (`src/utils/jwt.rs` lines 53-82): the
request proceeds with the claims inserted into its extensions, or it is
rejected with a 401 error message, or a 500 error when the secret is not
configured. -/
inductive AuthOutcome where
  | authorized (claims : Claims)
  | unauthorized (msg : String)
  | internalError (msg : String)
deriving DecidableEq, Repr

/-- The bearer-token `validator` (`src/utils/jwt.rs` lines 53-82): load the
secret (500 if unset), run `validate_token_async`; on success apply the manual
expiration check `claims.exp < now` (401 "Token expired"), otherwise insert
the claims into the request extensions; on a decode error map
`ExpiredSignature` to 401 "Token expired" and every other kind to 401
"Invalid token". -/
def validator (secret : Option String) (joinOk : Bool) (t : Token)
    (now : Nat) : AuthOutcome :=
  match secret with
  | none => .internalError "JWT secret not configured"
  | some key =>
      match validate_token_async joinOk t key now with
      | .ok claims =>
          if claims.exp < now then .unauthorized "Token expired"
          else .authorized claims
      | .error e =>
          match e with
          | .ExpiredSignature => .unauthorized "Token expired"
          | _ => .unauthorized "Invalid token"

/-- Model of `jsonwebtoken::encode` with the default HS256 header, as called
by `login` and `register` (`src/handlers/auth.rs`): produce a well-formed
token carrying the claims, signed with the given secret. -/
def encodeToken (c : Claims) (secret : String) : Token :=
  .signed c secret

/-- Token issuance as done by `login`/`register`/`generate_token`: claims are
the subject email and `exp = now + ttl` (7 days for login, 1 hour for
registration), encoded with the process secret. -/
def issueToken (subject : String) (ttl : Nat) (now : Nat) (secret : String) :
    Token :=
  encodeToken ⟨subject, now + ttl⟩ secret

/-- The auth gate as wired in `src/main.rs` line 42
(`HttpAuthentication::bearer(validator)`): a request with no `Authorization`
bearer header is rejected by the middleware before `validator` runs; with a
bearer token present, the outcome is that of `validator`. -/
def authGate (secret : Option String) (joinOk : Bool)
    (header : Option Token) (now : Nat) : AuthOutcome :=
  match header with
  | none => .unauthorized "Missing authorization header"
  | some t => validator secret joinOk t now

/-! ## Credential hasher (`bcrypt`, called from `src/handlers/auth.rs`) -/

/-- Modelled from the spec: the bcrypt KDF digest is computed by the external
`bcrypt` crate, not by code under `src/`.  Per the spec (§4.1), the encoded
hash embeds a per-call random salt and a cost, and distinct secrets never
verify against each other's hashes; the digest is therefore modelled as an
injective function of the salt and the secret. -/
def bcryptDigest (salt : Nat) (secret : String) : Nat × String :=
  (salt, secret)

/-- An encoded bcrypt hash: a self-describing string carrying the cost, the
salt and the digest, modelled structurally. -/
structure BcryptHash where
  cost : Nat
  salt : Nat
  digest : Nat × String
deriving DecidableEq, Repr

/-- `bcrypt::hash(secret, cost)` as called in `register`
(`src/handlers/auth.rs` line 109, cost 10): encode the cost, a fresh random
salt (passed in explicitly, since randomness is external), and the digest of
the salt and secret. -/
def bcryptHash (secret : String) (cost : Nat) (salt : Nat) : BcryptHash :=
  ⟨cost, salt, bcryptDigest salt secret⟩

/-- `bcrypt::verify(secret, hash)` as called in `login`
(`src/handlers/auth.rs` line 57): recompute the digest with the salt embedded
in the encoded hash and compare with the embedded digest. -/
def bcryptVerify (secret : String) (h : BcryptHash) : Bool :=
  bcryptDigest h.salt secret = h.digest

/-! ## Duplicate-registration cache (`EMAIL_CACHE`, `src/handlers/auth.rs`) -/

/-- Capacity of `EMAIL_CACHE` (`Cache::new(10_000)`,
`src/handlers/auth.rs` line 17). -/
def EMAIL_CACHE_CAPACITY : Nat := 10000

/-- Modelled from the spec: `EMAIL_CACHE` is a `moka::sync::Cache`, external
to `src/`.  Per the spec (§4.3), it is a bounded existence cache with
eviction; we model its state as the list of cached emails, most recent first,
truncated to the capacity. -/
def EmailCache := List String
deriving DecidableEq

/-- `EMAIL_CACHE.insert(k, true)` — the `mark_exists` operation
(`src/handlers/auth.rs` line 140): record `k` as most recent and evict beyond
capacity. -/
def markExists (c : EmailCache) (k : String) : EmailCache :=
  (k :: List.erase c k).take EMAIL_CACHE_CAPACITY

/-- `EMAIL_CACHE.get(k).is_some()` — the `probably_exists` lookup
(`src/handlers/auth.rs` line 101). -/
def probablyExists (c : EmailCache) (k : String) : Bool :=
  List.contains c k

/-! ## Identity store (`users` table, accessed from `src/handlers/auth.rs`) -/

/-- A stored user row, the fields relevant to registration and login
(`src/models/user.rs`, `users` table). -/
structure UserRow where
  user_id : String
  email : String
  password : BcryptHash
deriving DecidableEq, Repr

/-- The identity store: the `users` table with its unique index on `email`. -/
structure UserStore where
  users : List UserRow
deriving DecidableEq, Repr

/-- `SELECT password FROM users WHERE email = $1` as run by `login`
(`src/handlers/auth.rs` lines 44-52). -/
def findByEmail (st : UserStore) (email : String) : Option UserRow :=
  st.users.find? (fun u => u.email = email)

/-- `INSERT INTO users .. ON CONFLICT (email) DO NOTHING` as run by
`register` (`src/handlers/auth.rs` lines 119-128): atomically insert unless
the email is already present; the returned flag is whether a row was inserted
(`rows_affected() == 1`). -/
def insertIfAbsent (st : UserStore) (row : UserRow) : UserStore × Bool :=
  if st.users.any (fun u => u.email = row.email) then (st, false)
  else (⟨st.users ++ [row]⟩, true)

/-! ## Login and registration (`src/handlers/auth.rs`) -/

/-- The login/registration request body (`struct AuthRequest`,
`src/handlers/auth.rs`). -/
structure AuthRequest where
  email : String
  password : String
deriving DecidableEq, Repr

/-- The `#[validate]` checks on `AuthRequest`: the password must be 8 to 32
characters; the email must be well-formed (the `validator` crate's email
check is external, modelled as requiring an `@`). -/
def authRequestValid (r : AuthRequest) : Bool :=
  r.email.toList.contains '@' &&
  8 ≤ r.password.length && r.password.length ≤ 32

/-- `login` (`src/handlers/auth.rs` lines 36-90).  External outcomes are
explicit arguments: `dbOk` is whether the user fetch succeeded at the store,
`verifyJoinOk` and `tokenJoinOk` are whether the two `spawn_blocking` calls
returned a result (false = the offloaded task was abandoned), `secret` is the
process JWT secret, `now` the current time.  Returns the response
`(email, token)` or the error, exactly following the handler's control flow:
validation error → BadRequest; store failure → Internal "Database error";
unknown email → NotFound; verify-offload abandonment → Internal
"Password verification error"; failed verification → Unauthorized
"Invalid password"; token-offload abandonment or encode failure → Internal
"Token generation error"; otherwise a token with `exp = now + 7 days`. -/
def login (req : AuthRequest) (st : UserStore) (dbOk verifyJoinOk tokenJoinOk : Bool)
    (secret : String) (now : Nat) : Except AppError (String × Token) :=
  if ¬ authRequestValid req then .error (.BadRequest "validation error")
  else if ¬ dbOk then .error (.InternalServerError "Database error")
  else
    match findByEmail st req.email with
    | none => .error (.NotFound "Email not found")
    | some user =>
        if ¬ verifyJoinOk then
          .error (.InternalServerError "Password verification error")
        else if ¬ bcryptVerify req.password user.password then
          .error (.Unauthorized "Invalid password")
        else if ¬ tokenJoinOk then
          .error (.InternalServerError "Token generation error")
        else .ok (req.email, issueToken req.email (7 * 24 * 3600) now secret)

/-- `register` (`src/handlers/auth.rs` lines 93-162).  External outcomes are
explicit arguments: `hashJoinOk`, `uuidJoinOk`, `tokenJoinOk` are the three
`spawn_blocking` join results, `dbErr` is `some e` when the insert query
itself failed at the store with error text `e`, `salt` is the random bcrypt
salt, `uuid` the generated user id.  Returns the result together with the
cache and store states after the call, following the handler line by line:
validation; cached-positive short-circuit (Conflict "Email exists (cached)");
bcrypt hashing at cost 10 (abandonment → Internal "Hashing failed"); UUID
generation (abandonment → Internal "UUID generation failed"); atomic
insert-if-absent (store failure → Internal carrying the store's error text;
zero rows affected → Conflict "Email already exists"); only then
`EMAIL_CACHE.insert`; token generation (abandonment → Internal
"Token generation failed"); response token with `exp = now + 1 hour`. -/
def register (req : AuthRequest) (cache : EmailCache) (st : UserStore)
    (hashJoinOk uuidJoinOk tokenJoinOk : Bool) (dbErr : Option String)
    (salt : Nat) (uuid : String) (secret : String) (now : Nat) :
    Except AppError (String × Token) × EmailCache × UserStore :=
  if ¬ authRequestValid req then (.error (.BadRequest "validation error"), cache, st)
  else if probablyExists cache req.email then
    (.error (.Conflict "Email exists (cached)"), cache, st)
  else if ¬ hashJoinOk then
    (.error (.InternalServerError "Hashing failed"), cache, st)
  else if ¬ uuidJoinOk then
    (.error (.InternalServerError "UUID generation failed"), cache, st)
  else
    match dbErr with
    | some e => (.error (.InternalServerError e), cache, st)
    | none =>
        let passwordHash := bcryptHash req.password 10 salt
        let ins := insertIfAbsent st ⟨uuid, req.email, passwordHash⟩
        if ¬ ins.2 then
          (.error (.Conflict "Email already exists"), cache, ins.1)
        else
          let cache' := markExists cache req.email
          if ¬ tokenJoinOk then
            (.error (.InternalServerError "Token generation failed"), cache', ins.1)
          else
            (.ok (req.email, issueToken req.email 3600 now secret), cache', ins.1)

/-! ## Activity handlers (`src/handlers/activity.rs`) -/

/-- The activity create/update request body (`struct ActivityRequest`,
`src/handlers/activity.rs`). -/
structure ActivityRequest where
  activity_type : Option String
  done_at : Option String
  duration_in_minutes : Option Int
deriving DecidableEq, Repr

/-- The `#[validate]` checks on `ActivityRequest`: each field is required,
the strings must be non-empty, the duration at least 1. -/
def activityRequestValid (r : ActivityRequest) : Bool :=
  (match r.activity_type with | some s => 1 ≤ s.length | none => false) &&
  (match r.done_at with | some s => 1 ≤ s.length | none => false) &&
  (match r.duration_in_minutes with | some d => 1 ≤ d | none => false)

/-- Two's-complement wrap into the `i32` range: the release-mode semantics
of Rust `i32` arithmetic (a debug build panics instead wherever this wrap is
not the identity). -/
def wrap32 (n : Int) : Int :=
  (n + 2 ^ 31) % 2 ^ 32 - 2 ^ 31

/-- `calculate_calories_burned` (`src/handlers/activity.rs` lines 51-58),
translated arm by arm from the `match` on the activity-type string.  The
source multiplies in Rust `i32` (`duration_in_minutes: i32`, validated only
as at least 1, with no upper bound), so the product is wrapped into the
`i32` range. -/
def calculate_calories_burned (activity_type : String) (duration : Int) :
    Except AppError Int :=
  if activity_type = "Walking" ∨ activity_type = "Yoga" ∨
      activity_type = "Stretching" then .ok (wrap32 (4 * duration))
  else if activity_type = "Cycling" ∨ activity_type = "Swimming" ∨
      activity_type = "Dancing" then .ok (wrap32 (8 * duration))
  else if activity_type = "Hiking" ∨ activity_type = "Running" ∨
      activity_type = "HIIT" ∨ activity_type = "JumpRope" then
    .ok (wrap32 (10 * duration))
  else .error (.BadRequest "Invalid activity type")

/-- A stored activity row (`activities` table, `src/models/activity.rs`);
`done_at` is kept as its RFC3339 source text. -/
structure ActivityRow where
  activity_id : String
  user_id : String
  activity_type : String
  done_at : String
  duration_in_minutes : Int
  calories_burned : Int
  created_at : Nat
  updated_at : Nat
deriving DecidableEq, Repr

/-- The response body of activity creation/update (`struct ActivityResponse`,
`src/handlers/activity.rs`). -/
structure ActivityResponse where
  activity_id : String
  activity_type : String
  done_at : String
  duration_in_minutes : Int
  calories_burned : Int
deriving DecidableEq, Repr

/-- `create_activity` (`src/handlers/activity.rs` lines 61-122).  External
outcomes are explicit arguments: `dbOk1` is whether the user fetch succeeded,
`parseOk` whether `chrono`'s RFC3339 parse of `done_at` succeeded (the parser
is external to `src/`), `dbOk2` whether the insert succeeded; `newId` is the
generated activity id.  Returns the result and the activities table after the
call: validation error → BadRequest; invalid date → BadRequest
"Invalid date format"; then `calculate_calories_burned` (its BadRequest is
returned and nothing is written); only after that the row is inserted. -/
def create_activity (claims : Claims) (ust : UserStore)
    (acts : List ActivityRow) (payload : ActivityRequest)
    (dbOk1 parseOk dbOk2 : Bool) (newId : String) (now : Nat) :
    Except AppError ActivityResponse × List ActivityRow :=
  if ¬ activityRequestValid payload then
    (.error (.BadRequest "validation error"), acts)
  else if ¬ dbOk1 then (.error (.InternalServerError "Database error"), acts)
  else
    match findByEmail ust claims.sub with
    | none => (.error (.NotFound "User not found"), acts)
    | some user =>
        if ¬ parseOk then (.error (.BadRequest "Invalid date format"), acts)
        else
          match calculate_calories_burned (payload.activity_type.getD "")
              (payload.duration_in_minutes.getD 0) with
          | .error e => (.error e, acts)
          | .ok cal =>
              if ¬ dbOk2 then
                (.error (.InternalServerError "Database error"), acts)
              else
                (.ok ⟨newId, payload.activity_type.getD "",
                      payload.done_at.getD "",
                      payload.duration_in_minutes.getD 0, cal⟩,
                 acts ++ [⟨newId, user.user_id, payload.activity_type.getD "",
                           payload.done_at.getD "",
                           payload.duration_in_minutes.getD 0, cal, now, now⟩])

/-- `update_activity` (`src/handlers/activity.rs` lines 206-277).  Same
conventions as `create_activity`; `dbOk3` is whether the update query
succeeded.  The activity must belong to the caller; the update rewrites the
row's type, date, duration, calories and `updated_at`. -/
def update_activity (claims : Claims) (ust : UserStore)
    (acts : List ActivityRow) (activityId : String)
    (payload : ActivityRequest) (dbOk1 dbOk2 parseOk dbOk3 : Bool)
    (now : Nat) : Except AppError ActivityResponse × List ActivityRow :=
  if ¬ activityRequestValid payload then
    (.error (.BadRequest "validation error"), acts)
  else if ¬ dbOk1 then (.error (.InternalServerError "Database error"), acts)
  else
    match findByEmail ust claims.sub with
    | none => (.error (.NotFound "User not found"), acts)
    | some user =>
        if ¬ dbOk2 then
          (.error (.InternalServerError "Database error"), acts)
        else
          match acts.find? (fun a =>
              a.activity_id = activityId && a.user_id = user.user_id) with
          | none => (.error (.NotFound "Activity not found"), acts)
          | some _activity =>
              if ¬ parseOk then
                (.error (.BadRequest "Invalid date format"), acts)
              else
                match calculate_calories_burned
                    (payload.activity_type.getD "")
                    (payload.duration_in_minutes.getD 0) with
                | .error e => (.error e, acts)
                | .ok cal =>
                    if ¬ dbOk3 then
                      (.error (.InternalServerError "Database error"), acts)
                    else
                      (.ok ⟨activityId, payload.activity_type.getD "",
                            payload.done_at.getD "",
                            payload.duration_in_minutes.getD 0, cal⟩,
                       acts.map (fun a =>
                         if a.activity_id = activityId then
                           { a with
                             activity_type := payload.activity_type.getD "",
                             done_at := payload.done_at.getD "",
                             duration_in_minutes :=
                               payload.duration_in_minutes.getD 0,
                             calories_burned := cal,
                             updated_at := now }
                         else a))

/-- `get_activities` (`src/handlers/activity.rs` lines 125-203).  External
outcomes are explicit arguments: `dbErr1` is `some e` when the user fetch
failed at the store with error text `e`, `dbErr2` likewise for the listing
query, `rows` the rows the store returned.  On success the handler executes
the built statement with the full 8-value bind list; both store failures are
mapped to `InternalServerError(format!("Database error: \x7b\x7d", e))`,
i.e. the internal store error text is embedded in the message. -/
def get_activities (claims : Claims) (ust : UserStore)
    (q : GetActivitiesQuery) (dbErr1 dbErr2 : Option String)
    (rows : List ActivityRow) :
    Except AppError (String × List SqlValue × List ActivityRow) :=
  match dbErr1 with
  | some e => .error (.InternalServerError ("Database error: " ++ e))
  | none =>
      match findByEmail ust claims.sub with
      | none => .error (.NotFound "User not found")
      | some user =>
          match dbErr2 with
          | some e => .error (.InternalServerError ("Database error: " ++ e))
          | none =>
              .ok ((buildActivitiesQuery user.user_id q).1,
                   activitiesBindList user.user_id q, rows)

/-! ## Profile update (`src/handlers/profile.rs`) -/

/-- The profile update request body (`struct ProfileUpdate`,
`src/handlers/profile.rs`); every field is optional at the JSON level (absent
and `null` both deserialize to `None`); the `f64` weight and height are
modelled as rationals. -/
structure ProfileUpdate where
  name : Option String
  image_uri : Option String
  weight : Option Rat
  height : Option Rat
  preference : Option String
  weight_unit : Option String
  height_unit : Option String
deriving DecidableEq, Repr

/-- `has_null_fields` (`src/handlers/profile.rs` lines 83-87), translated
disjunct by disjunct. -/
def has_null_fields (updates : ProfileUpdate) : Bool :=
  updates.name.isNone || updates.image_uri.isNone || updates.weight.isNone ||
  updates.height.isNone || updates.preference.isNone ||
  updates.weight_unit.isNone || updates.height_unit.isNone

/-- `validate_preference` (`src/utils/validation.rs` lines 10-15). -/
def validate_preference (preference : String) : Except AppError Unit :=
  if ¬ (preference = "CARDIO" ∨ preference = "WEIGHT") then
    .error (.BadRequest "Preference must be either CARDIO or WEIGHT")
  else .ok ()

/-- `validate_weight_unit` (`src/utils/validation.rs` lines 17-22). -/
def validate_weight_unit (weight_unit : String) : Except AppError Unit :=
  if ¬ (weight_unit = "KG" ∨ weight_unit = "LBS") then
    .error (.BadRequest "Weight unit must be either KG or LBS")
  else .ok ()

/-- `validate_height_unit` (`src/utils/validation.rs` lines 24-29). -/
def validate_height_unit (height_unit : String) : Except AppError Unit :=
  if ¬ (height_unit = "CM" ∨ height_unit = "INCH") then
    .error (.BadRequest "Height unit must be either CM or INCH")
  else .ok ()

/-- A stored user profile row: the `users` table columns touched by
`get_profile`/`update_profile`, keyed by email and user id. -/
structure ProfileRow where
  user_id : String
  email : String
  preference : Option String
  weight_unit : Option String
  height_unit : Option String
  weight : Option Rat
  height : Option Rat
  name : Option String
  image_uri : Option String
  updated_at : Nat
deriving DecidableEq, Repr

/-- `update_profile` (`src/handlers/profile.rs` lines 90-168).  External
outcomes are explicit arguments: `claims` is what the auth gate put into the
request extensions (`None` → Unauthorized "Invalid token in claim"); `urlOk`
is the verdict of the external regex URL check `validate_url` and of the
derived `#[validate(url)]` attribute on `image_uri`; `deriveOk` is the verdict
of the remaining derived `updates.validate()` checks (name length 2-60, weight
10-1000, height 3-250); `dbOk1`/`dbOk2` are the fetch/update store outcomes.
The null-field check runs before any of those and before any store access;
the update rewrites all seven fields and `updated_at` at once. -/
def update_profile (claims : Option Claims) (st : List ProfileRow)
    (updates : ProfileUpdate) (urlOk deriveOk dbOk1 dbOk2 : Bool)
    (now : Nat) : Except AppError Unit × List ProfileRow :=
  match claims with
  | none => (.error (.Unauthorized "Invalid token in claim"), st)
  | some claims =>
      if has_null_fields updates then
        (.error (.BadRequest "Fields cannot be null if provided"), st)
      else
        match (match updates.preference with
               | some p => validate_preference p
               | none => .ok ()) with
        | .error e => (.error e, st)
        | .ok _ =>
        match (match updates.weight_unit with
               | some w => validate_weight_unit w
               | none => .ok ()) with
        | .error e => (.error e, st)
        | .ok _ =>
        match (match updates.height_unit with
               | some h => validate_height_unit h
               | none => .ok ()) with
        | .error e => (.error e, st)
        | .ok _ =>
        match (match updates.image_uri with
               | some uri =>
                   if uri.length = 0 then
                     Except.error
                       (AppError.BadRequest "Image URI cannot be empty if provided")
                   else if ¬ urlOk then
                     Except.error
                       (AppError.BadRequest "Invalid URI. It should be URI")
                   else Except.ok ()
               | none => Except.ok ()) with
        | .error e => (.error e, st)
        | .ok _ =>
        if ¬ deriveOk then
          (.error (.BadRequest "validation error"), st)
        else if ¬ dbOk1 then
          (.error (.InternalServerError "Database error"), st)
        else
          match st.find? (fun r => r.email = claims.sub) with
          | none => (.error (.NotFound "User not found"), st)
          | some user =>
              if ¬ dbOk2 then
                (.error (.InternalServerError "Database error"), st)
              else
                (.ok (), st.map (fun r =>
                  if r.user_id = user.user_id then
                    { r with
                      preference := updates.preference,
                      weight_unit := updates.weight_unit,
                      height_unit := updates.height_unit,
                      weight := updates.weight,
                      height := updates.height,
                      name := updates.name,
                      image_uri := updates.image_uri,
                      updated_at := now }
                  else r))

/-- Discriminator: is an auth outcome the internal-error classification? -/
def AuthOutcome.isInternal : AuthOutcome → Bool
  | .internalError _ => true
  | _ => false

/-! ## Derived forms of the built statement -/

/-- The statement text built by `get_activities` depends only on which
optional filters are present; this spells that text out as a function of the
five presence flags. -/
def activitiesStmt (ta tf tt tm tx : Bool) : String :=
  "SELECT * FROM activities WHERE user_id = $1" ++
  (cond ta " AND activity_type = $2" "") ++
  (cond tf " AND done_at >= $3::timestamptz" "") ++
  (cond tt " AND done_at <= $4::timestamptz" "") ++
  (cond tm " AND calories_burned >= $5" "") ++
  (cond tx " AND calories_burned <= $6" "") ++
  " LIMIT $7 OFFSET $8"

/-- Placeholder positions `$2`..`$6` selected by the presence flags. -/
def flagPositions (ta tf tt tm tx : Bool) : List Nat :=
  (cond ta [2] []) ++ (cond tf [3] []) ++ (cond tt [4] []) ++
  (cond tm [5] []) ++ (cond tx [6] [])

/-- Placeholder positions of the optional filters present in a query. -/
def optionalPositions (q : GetActivitiesQuery) : List Nat :=
  flagPositions q.activity_type.isSome q.done_at_from.isSome
    q.done_at_to.isSome q.calories_burned_min.isSome
    q.calories_burned_max.isSome

/-- The ten activity-type strings accepted by `calculate_calories_burned`. -/
def validActivityTypes : List String :=
  ["Walking", "Yoga", "Stretching", "Cycling", "Swimming", "Dancing",
   "Hiking", "Running", "HIIT", "JumpRope"]

/-! ## Helper lemmas -/

/-- The statement text of the built query is determined by the presence
flags of the five optional filters. -/
theorem buildActivitiesQuery_fst (owner : String) (q : GetActivitiesQuery) :
    (buildActivitiesQuery owner q).1 =
      activitiesStmt q.activity_type.isSome q.done_at_from.isSome
        q.done_at_to.isSome q.calories_burned_min.isSome
        q.calories_burned_max.isSome := by
  obtain ⟨l, o, a, df, dt, mn, mx⟩ := q
  cases a <;> cases df <;> cases dt <;> cases mn <;> cases mx <;> rfl

/-- The placeholders of the built statement are `$1`, the positions of the
present optional filters, then `$7` and `$8`. -/
theorem placeholders_activitiesStmt (ta tf tt tm tx : Bool) :
    placeholders (activitiesStmt ta tf tt tm tx) =
      1 :: (flagPositions ta tf tt tm tx ++ [7, 8]) := by
  revert ta tf tt tm tx
  decide

/-- `mark_exists` followed by `probably_exists` on the same key is true. -/
theorem markExists_probablyExists (c : EmailCache) (k : String) :
    probablyExists (markExists c k) k = true := by
  show (((k :: List.erase c k).take (9999 + 1)).contains k) = true
  rw [List.take_succ_cons]
  simp [List.contains_cons]

/-- If the store already holds the email, `register` cannot succeed,
whatever the cache and the other external outcomes. -/
theorem register_mem_ne_ok (req : AuthRequest) (c : EmailCache)
    (st : UserStore) (hj uj tj : Bool) (dbErr : Option String) (salt : Nat)
    (uuid secret : String) (now : Nat)
    (hmem : st.users.any (fun u => u.email = req.email) = true) :
    ∀ v, (register req c st hj uj tj dbErr salt uuid secret now).1 ≠ .ok v := by
  intro v hok
  simp only [register, insertIfAbsent, hmem, if_true] at hok
  split at hok
  · simp at hok
  · split at hok
    · simp at hok
    · split at hok
      · simp at hok
      · split at hok
        · simp at hok
        · split at hok
          · simp at hok
          · simp at hok

/-- If `register` succeeds, the email is in the resulting store. -/
theorem register_ok_mem (req : AuthRequest) (c : EmailCache)
    (st : UserStore) (hj uj tj : Bool) (dbErr : Option String) (salt : Nat)
    (uuid secret : String) (now : Nat) (v : String × Token) :
    (register req c st hj uj tj dbErr salt uuid secret now).1 = .ok v →
    ((register req c st hj uj tj dbErr salt uuid secret now).2.2).users.any
      (fun u => u.email = req.email) = true := by
  simp only [register, insertIfAbsent]
  repeat' split
  all_goals intro h
  all_goals try simp at h
  all_goals simp_all [List.any_append]

/-- The `i32` wrap is the identity exactly on the representable range. -/
theorem wrap32_eq_self (n : Int) (h1 : -(2 ^ 31) ≤ n) (h2 : n < 2 ^ 31) :
    wrap32 n = n := by
  unfold wrap32
  omega

/-- A string not among the ten valid types is rejected by
`calculate_calories_burned`. -/
theorem calories_invalid (t : String) (d : Int)
    (hmem : t ∉ validActivityTypes) :
    calculate_calories_burned t d =
      .error (.BadRequest "Invalid activity type") := by
  simp only [validActivityTypes, List.mem_cons, List.not_mem_nil, or_false,
    not_or] at hmem
  obtain ⟨h1, h2, h3, h4, h5, h6, h7, h8, h9, h10⟩ := hmem
  simp [calculate_calories_burned, h1, h2, h3, h4, h5, h6, h7, h8, h9, h10]

/-! ## Claims -/

/-- C1, counterexample: with only the type filter supplied, the built
parameter vector is exactly [owner, type, limit, offset] and the statement
has exactly one optional fragment, but the placeholder numbers in the
statement text are [1, 2, 7, 8], so the placeholders 7 and 8 exceed every
position of the 4-element parameter vector: the claim that each placeholder
number equals the position of its value in that list is false. -/
theorem claim_C1_counterexample :
    (buildActivitiesQuery "owner-1"
        ⟨none, none, some "Walking", none, none, none, none⟩).2 =
      ["owner-1", "Walking", "5", "0"] ∧
    fragmentCount (buildActivitiesQuery "owner-1"
        ⟨none, none, some "Walking", none, none, none, none⟩).1 = 1 ∧
    placeholders (buildActivitiesQuery "owner-1"
        ⟨none, none, some "Walking", none, none, none, none⟩).1 = [1, 2, 7, 8] ∧
    ¬ (∀ n ∈ placeholders (buildActivitiesQuery "owner-1"
        ⟨none, none, some "Walking", none, none, none, none⟩).1,
        n ≤ (buildActivitiesQuery "owner-1"
          ⟨none, none, some "Walking", none, none, none, none⟩).2.length) := by
  decide

/-- C1 (amended): the execution path of `get_activities` always binds all
eight values in the fixed declared order, and the statement's placeholders
are always `$1`, the fixed positions of the present optional filters, then
`$7`, `$8` — so each placeholder number equals the position of its value in
the executed bind list.  With only a type filter the statement has exactly
one optional fragment, the compacted parameter vector is
[owner, type, limit, offset] (its positions do not match the hard-coded
placeholder numbers), and the bind list is owner, the type, four NULLs, then
limit and offset.  With all five filters the parameter vector is the owner
plus the five filter values plus limit and offset in the fixed declared
order, and the placeholders are exactly 1..8 in order. -/
theorem claim_C1 :
    (∀ (owner : String) (q : GetActivitiesQuery),
      (activitiesBindList owner q).length = 8 ∧
      placeholders (buildActivitiesQuery owner q).1 =
        1 :: (optionalPositions q ++ [7, 8])) ∧
    (∀ (owner t : String) (lim off : Option Int),
      fragmentCount (buildActivitiesQuery owner
        ⟨lim, off, some t, none, none, none, none⟩).1 = 1 ∧
      (buildActivitiesQuery owner
        ⟨lim, off, some t, none, none, none, none⟩).2 =
        [owner, t, toString (lim.getD 5), toString (off.getD 0)] ∧
      placeholders (buildActivitiesQuery owner
        ⟨lim, off, some t, none, none, none, none⟩).1 = [1, 2, 7, 8] ∧
      activitiesBindList owner ⟨lim, off, some t, none, none, none, none⟩ =
        [.vStr owner, .vStr t, .vNull, .vNull, .vNull, .vNull,
         .vInt (lim.getD 5), .vInt (off.getD 0)]) ∧
    (∀ (owner t f dto : String) (mn mx : Int) (lim off : Option Int),
      fragmentCount (buildActivitiesQuery owner
        ⟨lim, off, some t, some f, some dto, some mn, some mx⟩).1 = 5 ∧
      (buildActivitiesQuery owner
        ⟨lim, off, some t, some f, some dto, some mn, some mx⟩).2 =
        [owner, t, f, dto, toString mn, toString mx,
         toString (lim.getD 5), toString (off.getD 0)] ∧
      placeholders (buildActivitiesQuery owner
        ⟨lim, off, some t, some f, some dto, some mn, some mx⟩).1 =
        [1, 2, 3, 4, 5, 6, 7, 8] ∧
      activitiesBindList owner
        ⟨lim, off, some t, some f, some dto, some mn, some mx⟩ =
        [.vStr owner, .vStr t, .vStr f, .vStr dto, .vInt mn, .vInt mx,
         .vInt (lim.getD 5), .vInt (off.getD 0)]) := by
  refine ⟨?_, ?_, ?_⟩
  · intro owner q
    refine ⟨rfl, ?_⟩
    rw [buildActivitiesQuery_fst]
    exact placeholders_activitiesStmt _ _ _ _ _
  · intro owner t lim off
    refine ⟨?_, rfl, ?_, rfl⟩
    · rw [buildActivitiesQuery_fst]
      show fragmentCount (activitiesStmt true false false false false) = 1
      decide
    · rw [buildActivitiesQuery_fst]
      show placeholders (activitiesStmt true false false false false) =
        [1, 2, 7, 8]
      decide
  · intro owner t f dto mn mx lim off
    refine ⟨?_, rfl, ?_, rfl⟩
    · rw [buildActivitiesQuery_fst]
      show fragmentCount (activitiesStmt true true true true true) = 5
      decide
    · rw [buildActivitiesQuery_fst]
      show placeholders (activitiesStmt true true true true true) =
        [1, 2, 3, 4, 5, 6, 7, 8]
      decide

/-- C2, counterexample: a well-formed token whose `exp` is past but whose
signature was made with a different secret is presented after its expiry
instant yet fails with the generic invalid condition, not the expired one;
moreover the two rejection messages differ ("Token expired" vs
"Invalid token"), so the external response does reveal which of the two
reasons applied. -/
theorem claim_C2_counterexample :
    validator (some "secret") true (.signed ⟨"user@x.y", 500⟩ "other") 1000 =
      .unauthorized "Invalid token" ∧
    validator (some "secret") true (.signed ⟨"user@x.y", 500⟩ "secret") 1000 =
      .unauthorized "Token expired" ∧
    validator (some "secret") true (.malformed "garbage") 1000 =
      .unauthorized "Invalid token" ∧
    ("Token expired" : String) ≠ "Invalid token" := by
  decide

/-- C2 (amended): a well-formed token signed with the configured secret and
validated after its expiry instant always fails with the expired condition
("Token expired"), never the generic invalid condition, whether it is caught
by the library's leeway check or by the handler's manual `exp < now` check;
a malformed token fails as "Invalid token".  Both surface as the same
Unauthorized class, but the two messages differ, so the reason is revealed
to the caller. -/
theorem claim_C2 (c : Claims) (key : String) (now : Nat) (h : c.exp < now) :
    validator (some key) true (.signed c key) now =
      .unauthorized "Token expired" ∧
    (∀ raw, validator (some key) true (.malformed raw) now =
      .unauthorized "Invalid token") := by
  refine ⟨?_, fun raw => rfl⟩
  by_cases hle : c.exp < now - jwtLeeway
  · simp [validator, validate_token_async, decodeToken, hle]
  · simp [validator, validate_token_async, decodeToken, hle, h]

/-- C2, witness: the amended claim at a concrete expired token. -/
theorem claim_C2_witness :
    (500 : Nat) < 1000 ∧
    validator (some "k") true (.signed ⟨"u@x.y", 500⟩ "k") 1000 =
      .unauthorized "Token expired" ∧
    validator (some "k") true (.malformed "oops") 1000 =
      .unauthorized "Invalid token" :=
  ⟨by decide, (claim_C2 ⟨"u@x.y", 500⟩ "k" 1000 (by decide)).1,
    (claim_C2 ⟨"u@x.y", 500⟩ "k" 1000 (by decide)).2 "oops"⟩

/-- C3, counterexample: a store failure during `register` is surfaced as the
Internal variant whose message is the store's error text verbatim, and
`error_response` serializes that message into the response body; likewise
`get_activities` embeds the store error text in its message.  The claim that
the response body never echoes the internal store error text is false. -/
theorem claim_C3_counterexample :
    (register ⟨"a@b.c", "password1"⟩ [] ⟨[]⟩ true true true
        (some "connection reset by peer") 0 "uid" "k" 0).1 =
      .error (.InternalServerError "connection reset by peer") ∧
    (AppError.InternalServerError "connection reset by peer").responseBody =
      "connection reset by peer" ∧
    get_activities ⟨"a@b.c", 99⟩ ⟨[]⟩ ⟨none, none, none, none, none, none, none⟩
        (some "connection reset by peer") none [] =
      .error (.InternalServerError
        ("Database error: " ++ "connection reset by peer")) :=
  ⟨rfl, rfl, rfl⟩

/-- C3 (amended): store failures are surfaced as the Internal variant, whose
`error_response` has status 500 and carries the variant's message as the
typed response body; `login` (like the other plain handlers) uses the fixed
safe message "Database error", but `register` returns the store error text
verbatim and `get_activities` embeds it in its message, so for those two
handlers the response body does echo the internal store error text. -/
theorem claim_C3 :
    (∀ (e : String) (req : AuthRequest) (cache : EmailCache) (st : UserStore)
        (salt : Nat) (uuid secret : String) (now : Nat),
      authRequestValid req = true →
      probablyExists cache req.email = false →
      (register req cache st true true true (some e) salt uuid secret now).1 =
        .error (.InternalServerError e)) ∧
    (∀ (e : String) (claims : Claims) (ust : UserStore)
        (q : GetActivitiesQuery) (rows : List ActivityRow),
      get_activities claims ust q (some e) none rows =
        .error (.InternalServerError ("Database error: " ++ e))) ∧
    (∀ msg : String, (AppError.InternalServerError msg).statusCode = 500 ∧
      (AppError.InternalServerError msg).responseBody = msg) ∧
    (∀ (req : AuthRequest) (st : UserStore) (vj tj : Bool) (secret : String)
        (now : Nat),
      authRequestValid req = true →
      login req st false vj tj secret now =
        .error (.InternalServerError "Database error")) := by
  refine ⟨?_, fun e claims ust q rows => rfl, fun msg => ⟨rfl, rfl⟩, ?_⟩
  · intro e req cache st salt uuid secret now hv hc
    simp [register, hv, hc]
  · intro req st vj tj secret now hv
    simp [login, hv]

/-- C3, witness: the amended claim at concrete store failures. -/
theorem claim_C3_witness :
    authRequestValid ⟨"a@b.c", "password1"⟩ = true ∧
    probablyExists [] "a@b.c" = false ∧
    (register ⟨"a@b.c", "password1"⟩ [] ⟨[]⟩ true true true (some "boom")
        4 "uid" "k" 0).1 = .error (.InternalServerError "boom") ∧
    get_activities ⟨"a@b.c", 99⟩ ⟨[]⟩ ⟨none, none, none, none, none, none, none⟩
        (some "boom") none [] =
      .error (.InternalServerError ("Database error: " ++ "boom")) ∧
    (AppError.InternalServerError "boom").statusCode = 500 ∧
    (AppError.InternalServerError "boom").responseBody = "boom" ∧
    login ⟨"a@b.c", "password1"⟩ ⟨[]⟩ false true true "k" 0 =
      .error (.InternalServerError "Database error") :=
  ⟨by decide, by decide,
    claim_C3.1 "boom" ⟨"a@b.c", "password1"⟩ [] ⟨[]⟩ 4 "uid" "k" 0
      (by decide) (by decide),
    claim_C3.2.1 "boom" ⟨"a@b.c", 99⟩ ⟨[]⟩ ⟨none, none, none, none, none, none, none⟩ [],
    (claim_C3.2.2.1 "boom").1, (claim_C3.2.2.1 "boom").2,
    claim_C3.2.2.2 ⟨"a@b.c", "password1"⟩ ⟨[]⟩ true true "k" 0 (by decide)⟩

/-- C4, counterexample: when the blocking pool abandons the offloaded token
validation (`joinOk = false`), the caller receives Unauthorized
"Invalid token", i.e. an invalid-credential outcome, not the Internal
classification: the claim is false for the token-validation offload. -/
theorem claim_C4_counterexample :
    validator (some "k") false (.signed ⟨"u@x.y", 9999⟩ "k") 100 =
      .unauthorized "Invalid token" ∧
    (validator (some "k") false (.signed ⟨"u@x.y", 9999⟩ "k") 100).isInternal =
      false := by
  decide

/-- C4 (amended): abandonment of the password-verify offload in `login` and
of the password-hash offload in `register` is surfaced as the Internal
classification (and never as a silent success or failure), but abandonment
of the token-validation offload is mapped by `validate_token_async` to the
invalid-token condition and surfaces as Unauthorized "Invalid token", not
Internal. -/
theorem claim_C4 :
    (∀ (secret : String) (tok : Token) (now : Nat),
      validator (some secret) false tok now = .unauthorized "Invalid token") ∧
    (∀ (req : AuthRequest) (st : UserStore) (tjo : Bool) (secret : String)
        (now : Nat) (u : UserRow),
      authRequestValid req = true →
      findByEmail st req.email = some u →
      login req st true false tjo secret now =
        .error (.InternalServerError "Password verification error")) ∧
    (∀ (req : AuthRequest) (cache : EmailCache) (st : UserStore)
        (uj tj : Bool) (dbErr : Option String) (salt : Nat)
        (uuid secret : String) (now : Nat),
      authRequestValid req = true →
      probablyExists cache req.email = false →
      register req cache st false uj tj dbErr salt uuid secret now =
        (.error (.InternalServerError "Hashing failed"), cache, st)) := by
  refine ⟨fun secret tok now => rfl, ?_, ?_⟩
  · intro req st tjo secret now u hv hf
    simp [login, hv, hf]
  · intro req cache st uj tj dbErr salt uuid secret now hv hc
    simp [register, hv, hc]

/-- C4, witness: the amended claim at concrete abandoned offloads. -/
theorem claim_C4_witness :
    validator (some "k") false (.malformed "x") 5 =
      .unauthorized "Invalid token" ∧
    authRequestValid ⟨"a@b.c", "password1"⟩ = true ∧
    findByEmail ⟨[⟨"u0", "a@b.c", bcryptHash "pw" 10 0⟩]⟩ "a@b.c" =
      some ⟨"u0", "a@b.c", bcryptHash "pw" 10 0⟩ ∧
    login ⟨"a@b.c", "password1"⟩ ⟨[⟨"u0", "a@b.c", bcryptHash "pw" 10 0⟩]⟩
        true false true "k" 0 =
      .error (.InternalServerError "Password verification error") ∧
    register ⟨"a@b.c", "password1"⟩ [] ⟨[]⟩ false true true none 0 "u1" "k" 0 =
      (.error (.InternalServerError "Hashing failed"), [], ⟨[]⟩) :=
  ⟨claim_C4.1 "k" (.malformed "x") 5, by decide, by decide,
    claim_C4.2.1 ⟨"a@b.c", "password1"⟩ ⟨[⟨"u0", "a@b.c", bcryptHash "pw" 10 0⟩]⟩
      true "k" 0 ⟨"u0", "a@b.c", bcryptHash "pw" 10 0⟩ (by decide) (by decide),
    claim_C4.2.2 ⟨"a@b.c", "password1"⟩ [] ⟨[]⟩ true true none 0 "u1" "k" 0
      (by decide) (by decide)⟩

/-- C5: verifying a secret against the hash produced from the same secret
succeeds, whatever the cost and salt; and verifying any other secret against
that hash fails. -/
theorem claim_C5 :
    (∀ (s : String) (cost salt : Nat),
      bcryptVerify s (bcryptHash s cost salt) = true) ∧
    (∀ (s1 s2 : String) (cost salt : Nat), s1 ≠ s2 →
      bcryptVerify s1 (bcryptHash s2 cost salt) = false) := by
  constructor
  · intro s cost salt
    simp [bcryptVerify, bcryptHash, bcryptDigest]
  · intro s1 s2 cost salt h
    simp [bcryptVerify, bcryptHash, bcryptDigest, h]

/-- C5, witness: the round trip at concrete secrets with the cost 10 used by
`register`. -/
theorem claim_C5_witness :
    ("password1" : String) ≠ "password2" ∧
    bcryptVerify "password1" (bcryptHash "password1" 10 42) = true ∧
    bcryptVerify "password1" (bcryptHash "password2" 10 42) = false :=
  ⟨by decide, claim_C5.1 "password1" 10 42,
    claim_C5.2 "password1" "password2" 10 42 (by decide)⟩

/-- C6: a token issued for any subject with any TTL and validated
immediately (same `now`, same secret) is accepted, and the validated claims
carry exactly the issued subject. -/
theorem claim_C6 (subject secret : String) (ttl now : Nat) :
    validator (some secret) true (issueToken subject ttl now secret) now =
      .authorized ⟨subject, now + ttl⟩ ∧
    (Claims.mk subject (now + ttl)).sub = subject := by
  refine ⟨?_, rfl⟩
  have h1 : ¬ (now + ttl < now - jwtLeeway) := by omega
  have h2 : ¬ (now + ttl < now) := by omega
  simp [validator, validate_token_async, issueToken, encodeToken,
    decodeToken, h1, h2]

/-- C7: after `mark_exists` the cache reports the key as present; a cache
miss still runs the authoritative insert-if-absent, returning Conflict and
leaving the store unchanged when the email is already stored; and if one
registration succeeded, a second registration of the same email against the
resulting store cannot succeed, whatever either cache said. -/
theorem claim_C7 :
    (∀ (c : EmailCache) (k : String),
      probablyExists (markExists c k) k = true) ∧
    (∀ (req : AuthRequest) (cache : EmailCache) (st : UserStore) (tj : Bool)
        (salt : Nat) (uuid secret : String) (now : Nat),
      authRequestValid req = true →
      probablyExists cache req.email = false →
      st.users.any (fun u => u.email = req.email) = true →
      (register req cache st true true tj none salt uuid secret now).1 =
        .error (.Conflict "Email already exists") ∧
      (register req cache st true true tj none salt uuid secret now).2.2 = st) ∧
    (∀ (req : AuthRequest) (c1 c2 : EmailCache) (st : UserStore)
        (h1 u1 t1 h2 u2 t2 : Bool) (d1 d2 : Option String) (s1 s2 : Nat)
        (id1 id2 k1 k2 : String) (n1 n2 : Nat) (v w : String × Token),
      (register req c1 st h1 u1 t1 d1 s1 id1 k1 n1).1 = .ok v →
      (register req c2 ((register req c1 st h1 u1 t1 d1 s1 id1 k1 n1).2.2)
          h2 u2 t2 d2 s2 id2 k2 n2).1 ≠ .ok w) := by
  refine ⟨markExists_probablyExists, ?_, ?_⟩
  · intro req cache st tj salt uuid secret now hv hc hmem
    constructor <;> simp [register, hv, hc, insertIfAbsent, hmem]
  · intro req c1 c2 st h1 u1 t1 h2 u2 t2 d1 d2 s1 s2 id1 id2 k1 k2 n1 n2 v w hok
    exact register_mem_ne_ok req c2 _ h2 u2 t2 d2 s2 id2 k2 n2
      (register_ok_mem req c1 st h1 u1 t1 d1 s1 id1 k1 n1 v hok) w

/-- C7, witness: the cache round trip, the conflict on a stored email, and
the two-registration race at concrete inputs. -/
theorem claim_C7_witness :
    probablyExists (markExists [] "a@b.c") "a@b.c" = true ∧
    (authRequestValid ⟨"a@b.c", "password1"⟩ = true ∧
      probablyExists [] "a@b.c" = false ∧
      ([⟨"u0", "a@b.c", bcryptHash "password1" 10 7⟩] : List UserRow).any
        (fun u => u.email = "a@b.c") = true) ∧
    (register ⟨"a@b.c", "password1"⟩ []
        ⟨[⟨"u0", "a@b.c", bcryptHash "password1" 10 7⟩]⟩
        true true true none 3 "u1" "k" 0).1 =
      .error (.Conflict "Email already exists") ∧
    (register ⟨"a@b.c", "password1"⟩ []
        ⟨[⟨"u0", "a@b.c", bcryptHash "password1" 10 7⟩]⟩
        true true true none 3 "u1" "k" 0).2.2 =
      ⟨[⟨"u0", "a@b.c", bcryptHash "password1" 10 7⟩]⟩ ∧
    (register ⟨"a@b.c", "password1"⟩ [] ⟨[]⟩ true true true none 3 "u1" "k" 0).1 =
      .ok ("a@b.c", issueToken "a@b.c" 3600 0 "k") ∧
    (register ⟨"a@b.c", "password1"⟩ []
        ((register ⟨"a@b.c", "password1"⟩ [] ⟨[]⟩ true true true none 3 "u1" "k" 0).2.2)
        true true true none 9 "u2" "k" 5).1 ≠
      .ok ("x", issueToken "x" 3600 5 "k") := by
  refine ⟨claim_C7.1 [] "a@b.c", ⟨by decide, by decide, by decide⟩, ?_, ?_, ?_, ?_⟩
  · exact ((claim_C7.2.1 ⟨"a@b.c", "password1"⟩ [] _ true 3 "u1" "k" 0
      (by decide) (by decide) (by decide))).1
  · exact ((claim_C7.2.1 ⟨"a@b.c", "password1"⟩ [] _ true 3 "u1" "k" 0
      (by decide) (by decide) (by decide))).2
  · rfl
  · exact claim_C7.2.2 ⟨"a@b.c", "password1"⟩ [] [] ⟨[]⟩ true true true true true true
      none none 3 9 "u1" "u2" "k" "k" 0 5 ("a@b.c", issueToken "a@b.c" 3600 0 "k")
      ("x", issueToken "x" 3600 5 "k") rfl

/-- C8: the auth gate rejects a request with no bearer token, rejects a
well-formed token signed with the wrong secret (whatever the offload join
outcome), and authorizes a valid unexpired token, inserting into the request
context exactly the claims encoded in the token, with the encoded subject. -/
theorem claim_C8 :
    (∀ (secret : Option String) (joinOk : Bool) (now : Nat),
      authGate secret joinOk none now =
        .unauthorized "Missing authorization header") ∧
    (∀ (secret k : String) (c : Claims) (joinOk : Bool) (now : Nat),
      k ≠ secret →
      authGate (some secret) joinOk (some (.signed c k)) now =
        .unauthorized "Invalid token") ∧
    (∀ (secret sub : String) (exp now : Nat),
      now ≤ exp →
      authGate (some secret) true (some (.signed ⟨sub, exp⟩ secret)) now =
        .authorized ⟨sub, exp⟩ ∧
      (Claims.mk sub exp).sub = sub) := by
  refine ⟨fun secret joinOk now => rfl, ?_, ?_⟩
  · intro secret k c joinOk now hk
    cases joinOk <;>
      simp [authGate, validator, validate_token_async, decodeToken, hk]
  · intro secret sub exp now hle
    have h1 : ¬ (exp < now - jwtLeeway) := by omega
    have h2 : ¬ (exp < now) := by omega
    exact ⟨by simp [authGate, validator, validate_token_async, decodeToken,
      h1, h2], rfl⟩

/-- C8, witness: the gate at a concrete missing header, wrong-signature
token, and valid unexpired token. -/
theorem claim_C8_witness :
    authGate (some "k") true none 5 =
      .unauthorized "Missing authorization header" ∧
    ("bad" : String) ≠ "k" ∧
    authGate (some "k") true (some (.signed ⟨"u@x.y", 100⟩ "bad")) 5 =
      .unauthorized "Invalid token" ∧
    (5 : Nat) ≤ 100 ∧
    authGate (some "k") true (some (.signed ⟨"u@x.y", 100⟩ "k")) 5 =
      .authorized ⟨"u@x.y", 100⟩ :=
  ⟨claim_C8.1 (some "k") true 5, by decide,
    claim_C8.2.1 "k" "bad" ⟨"u@x.y", 100⟩ true 5 (by decide), by decide,
    (claim_C8.2.2 "k" "u@x.y" 100 5 (by decide)).1⟩

/-- C9, counterexample: at the valid, `i32`-representable duration
600000000 (the validation only requires at least 1 minute), the program
multiplies in `i32` and wraps: "Hiking" yields 1705032704 calories, not the
exact product 6000000000 the claim asserts (a debug build would panic
instead). -/
theorem claim_C9_counterexample :
    (1 : Int) ≤ 600000000 ∧
    (600000000 : Int) < 2 ^ 31 ∧
    calculate_calories_burned "Hiking" 600000000 = .ok 1705032704 ∧
    (1705032704 : Int) ≠ 10 * 600000000 :=
  ⟨by norm_num, by norm_num, rfl, by norm_num⟩

/-- C9 (amended): calories are computed deterministically from type and
duration by an `i32` multiplication — 4 per minute for
Walking/Yoga/Stretching, 8 for Cycling/Swimming/Dancing, 10 for
Hiking/Running/HIIT/JumpRope — the product being exact whenever it fits the
`i32` range and wrapped (release) or a panic (debug) otherwise; any other
type string is rejected with BadRequest "Invalid activity type", and both
`create_activity` and `update_activity` return that error with the
activities table unchanged (no write happens). -/
theorem claim_C9 :
    (∀ d : Int, -(2 ^ 31) ≤ 4 * d → 4 * d < 2 ^ 31 →
      calculate_calories_burned "Walking" d = .ok (4 * d) ∧
      calculate_calories_burned "Yoga" d = .ok (4 * d) ∧
      calculate_calories_burned "Stretching" d = .ok (4 * d)) ∧
    (∀ d : Int, -(2 ^ 31) ≤ 8 * d → 8 * d < 2 ^ 31 →
      calculate_calories_burned "Cycling" d = .ok (8 * d) ∧
      calculate_calories_burned "Swimming" d = .ok (8 * d) ∧
      calculate_calories_burned "Dancing" d = .ok (8 * d)) ∧
    (∀ d : Int, -(2 ^ 31) ≤ 10 * d → 10 * d < 2 ^ 31 →
      calculate_calories_burned "Hiking" d = .ok (10 * d) ∧
      calculate_calories_burned "Running" d = .ok (10 * d) ∧
      calculate_calories_burned "HIIT" d = .ok (10 * d) ∧
      calculate_calories_burned "JumpRope" d = .ok (10 * d)) ∧
    (∀ (t : String) (d : Int), t ∈ validActivityTypes →
      ∃ k : Int, calculate_calories_burned t d = .ok (wrap32 (k * d)) ∧
        (k = 4 ∨ k = 8 ∨ k = 10)) ∧
    (∀ (t : String) (d : Int), t ∉ validActivityTypes →
      calculate_calories_burned t d =
        .error (.BadRequest "Invalid activity type")) ∧
    (∀ (claims : Claims) (ust : UserStore) (acts : List ActivityRow)
        (payload : ActivityRequest) (t : String) (dbOk2 : Bool)
        (newId : String) (now : Nat) (u : UserRow),
      activityRequestValid payload = true →
      payload.activity_type = some t →
      t ∉ validActivityTypes →
      findByEmail ust claims.sub = some u →
      create_activity claims ust acts payload true true dbOk2 newId now =
        (.error (.BadRequest "Invalid activity type"), acts)) ∧
    (∀ (claims : Claims) (ust : UserStore) (acts : List ActivityRow)
        (aid : String) (payload : ActivityRequest) (t : String) (dbOk3 : Bool)
        (now : Nat) (u : UserRow) (a0 : ActivityRow),
      activityRequestValid payload = true →
      payload.activity_type = some t →
      t ∉ validActivityTypes →
      findByEmail ust claims.sub = some u →
      acts.find? (fun a => a.activity_id = aid && a.user_id = u.user_id) =
        some a0 →
      update_activity claims ust acts aid payload true true true dbOk3 now =
        (.error (.BadRequest "Invalid activity type"), acts)) := by
  refine ⟨?_, ?_, ?_, ?_, calories_invalid, ?_, ?_⟩
  · intro d h1 h2
    have hw : wrap32 (4 * d) = 4 * d := wrap32_eq_self _ h1 h2
    refine ⟨?_, ?_, ?_⟩ <;> simp [calculate_calories_burned, hw]
  · intro d h1 h2
    have hw : wrap32 (8 * d) = 8 * d := wrap32_eq_self _ h1 h2
    refine ⟨?_, ?_, ?_⟩ <;> simp [calculate_calories_burned, hw]
  · intro d h1 h2
    have hw : wrap32 (10 * d) = 10 * d := wrap32_eq_self _ h1 h2
    refine ⟨?_, ?_, ?_, ?_⟩ <;> simp [calculate_calories_burned, hw]
  · intro t d ht
    simp only [validActivityTypes, List.mem_cons, List.not_mem_nil,
      or_false] at ht
    rcases ht with h | h | h | h | h | h | h | h | h | h <;> subst h
    · exact ⟨4, by simp [calculate_calories_burned], by norm_num⟩
    · exact ⟨4, by simp [calculate_calories_burned], by norm_num⟩
    · exact ⟨4, by simp [calculate_calories_burned], by norm_num⟩
    · exact ⟨8, by simp [calculate_calories_burned], by norm_num⟩
    · exact ⟨8, by simp [calculate_calories_burned], by norm_num⟩
    · exact ⟨8, by simp [calculate_calories_burned], by norm_num⟩
    · exact ⟨10, by simp [calculate_calories_burned], by norm_num⟩
    · exact ⟨10, by simp [calculate_calories_burned], by norm_num⟩
    · exact ⟨10, by simp [calculate_calories_burned], by norm_num⟩
    · exact ⟨10, by simp [calculate_calories_burned], by norm_num⟩
  · intro claims ust acts payload t dbOk2 newId now u hv ht hmem hf
    simp [create_activity, hv, ht, hf, calories_invalid t _ hmem]
  · intro claims ust acts aid payload t dbOk3 now u a0 hv ht hmem hf hfa
    simp [update_activity, hv, ht, hf, hfa, calories_invalid t _ hmem]

/-- C9, witness: the amended claim at concrete inputs — the exact products
at the in-range duration 30, the wrapped form for a valid type, the rejected
unknown type "Sleeping", and the unchanged activities table. -/
theorem claim_C9_witness :
    (-(2 ^ 31) : Int) ≤ 4 * 30 ∧ (4 * 30 : Int) < 2 ^ 31 ∧
    activityRequestValid
      ⟨some "Sleeping", some "2024-01-01T00:00:00Z", some 30⟩ = true ∧
    (⟨some "Sleeping", some "2024-01-01T00:00:00Z", some 30⟩ :
      ActivityRequest).activity_type = some "Sleeping" ∧
    "Sleeping" ∉ validActivityTypes ∧
    "Hiking" ∈ validActivityTypes ∧
    findByEmail ⟨[⟨"u0", "a@b.c", bcryptHash "pw" 10 0⟩]⟩ "a@b.c" =
      some ⟨"u0", "a@b.c", bcryptHash "pw" 10 0⟩ ∧
    calculate_calories_burned "Walking" 30 = .ok 120 ∧
    calculate_calories_burned "Hiking" 30 = .ok 300 ∧
    (∃ k : Int, calculate_calories_burned "Hiking" 30 =
      .ok (wrap32 (k * 30)) ∧ (k = 4 ∨ k = 8 ∨ k = 10)) ∧
    calculate_calories_burned "Sleeping" 30 =
      .error (.BadRequest "Invalid activity type") ∧
    create_activity ⟨"a@b.c", 99⟩ ⟨[⟨"u0", "a@b.c", bcryptHash "pw" 10 0⟩]⟩ []
        ⟨some "Sleeping", some "2024-01-01T00:00:00Z", some 30⟩
        true true true "id1" 0 =
      (.error (.BadRequest "Invalid activity type"), []) := by
  refine ⟨by decide, by decide, by decide, rfl, by decide, by decide,
    by decide, ?_, ?_, ?_, ?_, ?_⟩
  · have h := (claim_C9.1 30 (by decide) (by decide)).1
    simpa using h
  · have h := (claim_C9.2.2.1 30 (by decide) (by decide)).1
    simpa using h
  · exact claim_C9.2.2.2.1 "Hiking" 30 (by decide)
  · exact claim_C9.2.2.2.2.1 "Sleeping" 30 (by decide)
  · exact claim_C9.2.2.2.2.2.1 ⟨"a@b.c", 99⟩
      ⟨[⟨"u0", "a@b.c", bcryptHash "pw" 10 0⟩]⟩
      [] ⟨some "Sleeping", some "2024-01-01T00:00:00Z", some 30⟩ "Sleeping"
      true "id1" 0 ⟨"u0", "a@b.c", bcryptHash "pw" 10 0⟩
      (by decide) rfl (by decide) (by decide)

/-- C10: if any one of the seven profile fields is absent or null, the
update is rejected with BadRequest "Fields cannot be null if provided" and
the stored profiles are unchanged, whatever the store and validation
outcomes would have been — the null-field check runs before any store
access, so a partial update is never applied. -/
theorem claim_C10 (claims : Claims) (st : List ProfileRow)
    (updates : ProfileUpdate) (urlOk deriveOk dbOk1 dbOk2 : Bool) (now : Nat)
    (hnull : updates.name = none ∨ updates.image_uri = none ∨
      updates.weight = none ∨ updates.height = none ∨
      updates.preference = none ∨ updates.weight_unit = none ∨
      updates.height_unit = none) :
    has_null_fields updates = true ∧
    update_profile (some claims) st updates urlOk deriveOk dbOk1 dbOk2 now =
      (.error (.BadRequest "Fields cannot be null if provided"), st) := by
  have h : has_null_fields updates = true := by
    rcases hnull with h | h | h | h | h | h | h <;> simp [has_null_fields, h]
  exact ⟨h, by simp [update_profile, h]⟩

/-- C10, witness: a concrete update missing only the name is rejected with
the stored profiles untouched. -/
theorem claim_C10_witness :
    (⟨none, some "https://a.bc/x", some 70, some 170, some "CARDIO",
      some "KG", some "CM"⟩ : ProfileUpdate).name = none ∧
    has_null_fields ⟨none, some "https://a.bc/x", some 70, some 170,
      some "CARDIO", some "KG", some "CM"⟩ = true ∧
    update_profile (some ⟨"a@b.c", 99⟩) []
        ⟨none, some "https://a.bc/x", some 70, some 170, some "CARDIO",
          some "KG", some "CM"⟩ true true true true 0 =
      (.error (.BadRequest "Fields cannot be null if provided"), []) :=
  ⟨rfl,
    (claim_C10 ⟨"a@b.c", 99⟩ [] ⟨none, some "https://a.bc/x", some 70,
      some 170, some "CARDIO", some "KG", some "CM"⟩ true true true true 0
      (Or.inl rfl)).1,
    (claim_C10 ⟨"a@b.c", 99⟩ [] ⟨none, some "https://a.bc/x", some 70,
      some 170, some "CARDIO", some "KG", some "CM"⟩ true true true true 0
      (Or.inl rfl)).2⟩

end FitByte
